import Mathlib

/-!
Verification of the client-side checkout script (`script.js`) of the
EpicIELTS landing page.  The script is embedded shallowly: JavaScript
values that matter to the script (numbers, numeric strings, `NaN`,
empty strings) are modelled by an inductive type, network effects are
modelled by an explicit outcome datum passed in, and the per-click
orchestrator `handleRegisterClick` becomes a pure function from the
button state and the environment's behaviour to a record of every
observable effect (alerts, console logs, final button state, the
requests issued and the widget configuration).
-/

/-- Classification of a JavaScript string as far as `Number(s)` and
truthiness are concerned.  `empty` is the empty string `""` (falsy,
`Number` gives `0`); `numeric q` is a non-empty string whose numeric
value is `q` (this includes whitespace-only strings, whose value is
`0`); `nonNumeric` is a non-empty string on which `Number` gives
`NaN`.  JavaScript's `Number` ignores surrounding whitespace, so the
`.trim()` in `toPaise` does not change the numeric value and the model
does not track whitespace separately. -/
inductive StrClass : Type
  | empty : StrClass
  | numeric : ℚ → StrClass
  | nonNumeric : StrClass
deriving DecidableEq, Repr

/-- A JavaScript value that can reach `toPaise`: a (finite) number, the
number `NaN`, or a string. -/
inductive JSVal : Type
  | num : ℚ → JSVal
  | nan : JSVal
  | str : StrClass → JSVal
deriving DecidableEq, Repr

/-- `Number(v)` for the modelled values; `none` stands for `NaN`. -/
def jsNumber : JSVal → Option ℚ
  | .num q => some q
  | .nan => none
  | .str .empty => some 0
  | .str (.numeric q) => some q
  | .str .nonNumeric => none

/-- Truthiness of a string (only the empty string is falsy). -/
def strTruthy : StrClass → Bool
  | .empty => false
  | _ => true

/-- `x || 0` applied to the result of `Number`: `NaN` (modelled `none`)
and `0` are falsy and give `0`; any other number passes through. -/
def jsOrZero : Option ℚ → ℚ
  | none => 0
  | some q => if q = 0 then 0 else q

/-- Multiplication of a rational by the literal `100`, computed on the
numerator/denominator representation so that it reduces inside the
kernel (the library's `Rat.mul` is deliberately irreducible).  The
lemma `mul100_eq` below proves it equal to `q * 100`. -/
def mul100 (q : ℚ) : ℚ :=
  Rat.normalize (q.num * 100) q.den q.den_nz

/-- `Math.round(x)` for finite `x`: round half toward positive
infinity, i.e. `⌊x + 1/2⌋`, computed on the numerator/denominator
representation so that it reduces inside the kernel.  The lemma
`jsRound_eq_floor` below proves it equal to `⌊q + 1/2⌋`. -/
def jsRound (q : ℚ) : ℤ :=
  Int.fdiv (2 * q.num + q.den) (2 * q.den)

/-- `toPaise` from `script.js` (lines 27-32):
`const n = typeof amount === 'string' ? amount.trim() : amount;
const x = Number(n) || 0; return Math.round(x * 100);`. -/
def toPaise (amount : JSVal) : ℤ :=
  jsRound (mul100 (jsOrZero (jsNumber amount)))

/-- Modelled from the spec's words (section 8): for numeric or
numeric-string input the result is `round(Number(a||0) * 100)`, for
non-numeric input the result is `0`. -/
def toMinorUnitsSpec (amount : JSVal) : ℤ :=
  match jsNumber amount with
  | some q => jsRound (mul100 q)
  | none => 0

/-- An error value thrown/rejected in JavaScript; the script only ever
inspects its `message` field. -/
structure JSError : Type where
  message : String
deriving DecidableEq, Repr

/-- A `fetch` `Response` as the script observes it: the `ok` flag
(true for 2xx statuses) and the outcome of `res.json()`, which either
yields a decoded value or fails on an undecodable body. -/
structure Response (α : Type) : Type where
  ok : Bool
  body : Except Unit α

/-- Outcome of a `fetch` call: either the promise rejects (network
failure) with some error, or it resolves with a response. -/
def FetchResult (α : Type) : Type :=
  Except JSError (Response α)

/-- `safeJSON` from `script.js` (lines 34-36): `try { return await
res.json(); } catch (e) { return null; }`. -/
def safeJSON {α : Type} (res : Response α) : Option α :=
  match res.body with
  | .ok v => some v
  | .error _ => none

/-- The order descriptor decoded from the create-order response:
`{ order_id, amount }`, each field possibly absent.  The amount is an
integer per the external-interface contract. -/
structure Order : Type where
  order_id : Option String
  amount : Option ℤ
deriving DecidableEq, Repr

/-- The verification result decoded from the verify-payment response:
`{ verified: boolean }`, possibly absent. -/
structure Verification : Type where
  verified : Option Bool
deriving DecidableEq, Repr

/-- The JSON body sent by `createOrderOnServer` (line 71):
`{ amount: amountPaise, receipt: receipt || undefined }`. -/
structure CreateOrderRequest : Type where
  amount : ℤ
  receipt : Option String
deriving DecidableEq, Repr

/-- Request-body construction of `createOrderOnServer`: an empty
receipt string is falsy, so `receipt || undefined` drops it. -/
def createOrderBody (amountPaise : ℤ) (receipt : String) : CreateOrderRequest :=
  { amount := amountPaise
    receipt := if receipt = "" then none else some receipt }

/-- Return-value behaviour of `createOrderOnServer` (lines 66-79): the
`try`/`catch` turns a rejected `fetch` into `null`; a non-`ok` status
returns `null`; otherwise the result of `safeJSON`. -/
def createOrderOnServer (f : FetchResult Order) : Option Order :=
  match f with
  | .error _ => none
  | .ok resp => if resp.ok then safeJSON resp else none

/-- Return-value behaviour of `verifyPaymentOnServer` (lines 82-94):
`return resp.ok ? await safeJSON(resp) : null`, with the `try`/`catch`
turning a rejected `fetch` into `null`. -/
def verifyPaymentOnServer (f : FetchResult Verification) : Option Verification :=
  match f with
  | .error _ => none
  | .ok resp => if resp.ok then safeJSON resp else none

/-- Modelled from the spec's words (section 4.3): return the decoded
object on a successful decodable response and `null` on any
non-success status, network failure, or undecodable body. -/
def clientContract {α : Type} (f : FetchResult α) : Option α :=
  match f with
  | .ok ⟨true, .ok v⟩ => some v
  | _ => none

/-- The payment response the Razorpay widget hands to the `handler`
callback on success. -/
structure PaymentResponse : Type where
  razorpay_payment_id : String
  razorpay_order_id : String
  razorpay_signature : String
deriving DecidableEq, Repr

/-- The checkout configuration object assembled by
`handleRegisterClick` (lines 148-163) and passed to the widget; nested
objects (`prefill`, `notes`, `theme`) are flattened into fields. -/
structure RzpOptions : Type where
  key : String
  amount : ℤ
  currency : String
  name : String
  description : String
  image : String
  order_id : Option String
  prefill_name : String
  prefill_email : String
  prefill_contact : String
  notes_receipt : String
  notes_source : String
  theme_color : String
deriving DecidableEq, Repr

/-- Behaviour of the external Razorpay widget on one invocation: it
invokes the success `handler` with a payment response, or the
`ondismiss` callback, or construction/`open` throws (this is also what
happens when the `Razorpay` constructor is missing — a
`ReferenceError`, whose message is not the dismissal sentinel). -/
inductive WidgetBehavior : Type
  | success : PaymentResponse → WidgetBehavior
  | dismiss : WidgetBehavior
  | constructFail : String → WidgetBehavior
deriving DecidableEq, Repr

/-- `openRazorpayCheckout` (lines 97-118): the returned promise
resolves with the payment response on success, rejects with
`Error('checkout_dismissed')` on dismissal, and rejects with the
thrown error if constructing or opening the widget throws.  The
options argument is recorded by the caller; the promise outcome
depends only on the widget's behaviour. -/
def openRazorpayCheckout (widget : WidgetBehavior) : Except JSError PaymentResponse :=
  match widget with
  | .success resp => .ok resp
  | .dismiss => .error { message := "checkout_dismissed" }
  | .constructFail msg => .error { message := msg }

/-- A register trigger element as `handleRegisterClick` reads it.
`dataset.amount` and `getAttribute('data-amount')` reflect the same
`data-amount` attribute in the DOM, so each `data-*` pair is one
field; `none` means the attribute is absent. -/
structure Button : Type where
  dataAmount : Option StrClass
  dataReceipt : Option String
  dataDescription : Option String
  dataName : Option String
  dataEmail : Option String
  dataContact : Option String
  disabled : Bool
  innerHTML : String
deriving DecidableEq, Repr

/-- `x || dflt` for an optional string attribute: absent (`null`) and
the empty string are falsy. -/
def attrOr (v : Option String) (dflt : String) : String :=
  match v with
  | some s => if s = "" then dflt else s
  | none => dflt

/-- `btn.dataset.amount || btn.getAttribute('data-amount') || '99'`
(line 124): both reads see the same attribute, so the chain falls back
to the literal string `'99'` exactly when the attribute is absent or
empty. -/
def effAmountAttr (btn : Button) : StrClass :=
  match btn.dataAmount with
  | some s => if strTruthy s then s else .numeric 99
  | none => .numeric 99

/-- The minor-unit amount computed from the trigger (line 125). -/
def effAmountPaise (btn : Button) : ℤ :=
  toPaise (.str (effAmountAttr btn))

/-- `btn.dataset.receipt || ... || 'receipt_${Date.now()}'` (line 126). -/
def effReceipt (btn : Button) (now : ℕ) : String :=
  attrOr btn.dataReceipt ("receipt_" ++ toString now)

/-- `verification && verification.verified` (line 172): the decoded
result must be non-null and its `verified` field must be truthy, which
for the boolean field of the interface contract means `true`. -/
def verificationTruthy (v : Option Verification) : Bool :=
  match v with
  | some r => r.verified = some true
  | none => false

/-- `serverOrder.amount` truthiness (line 139): an absent or zero
amount is falsy. -/
def orderAmountTruthy (o : Order) : Bool :=
  match o.amount with
  | some a => a ≠ 0
  | none => false

/-- The publishable-key constant (line 19). -/
def RAZORPAY_KEY_ID : String := "RAZORPAY_KEY_ID_PLACEHOLDER"

/-- The checkout options assembled from the button, the clock and the
(possibly discarded) server order (lines 148-163). -/
def buildOptions (btn : Button) (now : ℕ) (serverOrder : Option Order) : RzpOptions :=
  { key := RAZORPAY_KEY_ID
    amount := effAmountPaise btn
    currency := "INR"
    name := "IELTS Powerhouse Workshop"
    description := attrOr btn.dataDescription "Workshop Booking"
    image := ""
    order_id := match serverOrder with
      | some o => o.order_id
      | none => none
    prefill_name := attrOr btn.dataName ""
    prefill_email := attrOr btn.dataEmail ""
    prefill_contact := attrOr btn.dataContact ""
    notes_receipt := effReceipt btn now
    notes_source := "landing_page"
    theme_color := "#D4AF37" }

/-- The observable outcome of the `try`/`catch` block of
`handleRegisterClick` (lines 165-187). -/
structure Settlement : Type where
  alerts : List String
  infoLogs : List String
  errorLogs : ℕ
  verifyReq : Option PaymentResponse
deriving DecidableEq, Repr

/-- The wording of the verified-payment alert (line 174). -/
def verifiedMsg (pid : String) : String :=
  "Payment successful and verified. Payment ID: " ++ pid

/-- The wording of the provisional-success alert (line 177). -/
def pendingMsg (pid : String) : String :=
  "Payment successful. Payment ID: " ++ pid ++
    "\nPlease wait while we verify your payment."

/-- The wording of the generic failure alert (line 186). -/
def failureMsg : String :=
  "Payment could not be completed. Please try again or contact support."

/-- The `try`/`catch` block (lines 165-187): on widget success, verify
and alert one of the two success messages; on rejection, stay silent
(one `console.info`) for the dismissal sentinel and otherwise log an
error and alert the generic failure message. -/
def settle (outcome : Except JSError PaymentResponse)
    (verifyFetch : FetchResult Verification) : Settlement :=
  match outcome with
  | .ok paymentResp =>
      let verification := verifyPaymentOnServer verifyFetch
      if verificationTruthy verification then
        { alerts := [verifiedMsg paymentResp.razorpay_payment_id]
          infoLogs := []
          errorLogs := 0
          verifyReq := some paymentResp }
      else
        { alerts := [pendingMsg paymentResp.razorpay_payment_id]
          infoLogs := []
          errorLogs := 0
          verifyReq := some paymentResp }
  | .error err =>
      if err.message = "checkout_dismissed" then
        { alerts := []
          infoLogs := ["Razorpay checkout dismissed by user."]
          errorLogs := 0
          verifyReq := none }
      else
        { alerts := [failureMsg]
          infoLogs := []
          errorLogs := 1
          verifyReq := none }

/-- Everything `handleRegisterClick` does that the page can observe. -/
structure ClickResult : Type where
  finalBtn : Button
  alerts : List String
  infoLogs : List String
  errorLogs : ℕ
  createReq : CreateOrderRequest
  widgetOptions : RzpOptions
  verifyReq : Option PaymentResponse
deriving DecidableEq, Repr

/-- `handleRegisterClick` (lines 121-193).  The environment's
behaviour on this click is passed in explicitly: the outcome of the
create-order `fetch`, the widget's behaviour, and the outcome of the
verify `fetch` (the latter is only consulted on widget success).
`now` is `Date.now()`.  The widget is always opened: `buildOptions` is
always assembled and handed to `openRazorpayCheckout`, and the `finally`
block always restores the button. -/
def handleRegisterClick (btn : Button) (now : ℕ)
    (createFetch : FetchResult Order) (widget : WidgetBehavior)
    (verifyFetch : FetchResult Verification) : ClickResult :=
  let amountPaise := effAmountPaise btn
  let receipt := effReceipt btn now
  let originalText := btn.innerHTML
  let serverOrder0 := createOrderOnServer createFetch
  let serverOrder := match serverOrder0 with
    | some o => if orderAmountTruthy o then some o else none
    | none => none
  let options := buildOptions btn now serverOrder
  let outcome := openRazorpayCheckout widget
  let s := settle outcome verifyFetch
  { finalBtn := { btn with disabled := false, innerHTML := originalText }
    alerts := s.alerts
    infoLogs := s.infoLogs
    errorLogs := s.errorLogs
    createReq := createOrderBody amountPaise receipt
    widgetOptions := options
    verifyReq := s.verifyReq }

/-- A page element as `initRegisterButtons` sees it: the selector-
relevant features (`id`, class list, presence of `data-register`), the
`data-amount` attribute, the `__registerHandlerAttached` marker, and
the number of click handlers bound to it so far. -/
structure Elem : Type where
  elemId : String
  classes : List String
  hasDataRegister : Bool
  dataAmount : Option StrClass
  registerHandlerAttached : Bool
  clickHandlers : ℕ
deriving DecidableEq, Repr

/-- Whether the element is matched by at least one of the selectors
`'.register-btn', '.registerBtn', '[data-register]', '.register-big',
'#registerBtn', '#registerSectionBtn'` (line 198). -/
def matchedBySelectors (el : Elem) : Bool :=
  el.classes.contains "register-btn" ||
  el.classes.contains "registerBtn" ||
  el.hasDataRegister ||
  el.classes.contains "register-big" ||
  (el.elemId == "registerBtn") ||
  (el.elemId == "registerSectionBtn")

/-- The per-element body of the `elems.forEach` loop (lines 203-210):
skip when the attached marker is already set, otherwise add one click
handler, set the marker, and backfill `data-amount` when it is falsy
(`getAttribute('data-amount') || '99'` yields the string `'99'` in
exactly that case, since both reads see the same attribute). -/
def bindElem (el : Elem) : Elem :=
  if el.registerHandlerAttached then el
  else
    { el with
      clickHandlers := el.clickHandlers + 1
      registerHandlerAttached := true
      dataAmount := match el.dataAmount with
        | some s => if strTruthy s then some s else some (.numeric 99)
        | none => some (.numeric 99) }

/-- The per-element step of `initRegisterButtons`: elements matched by
some selector are fed to the loop body, others are untouched. -/
def initStep (el : Elem) : Elem :=
  if matchedBySelectors el then bindElem el else el

/-- `initRegisterButtons` (lines 196-216): collect the elements
matched by the selector list into a `Set` (so each DOM element is
processed at most once even when several selectors match it) and run
the binding body on each.  On the list-of-elements DOM model this is a
map of `initStep` over the page's elements. -/
def initRegisterButtons (dom : List Elem) : List Elem :=
  dom.map initStep

/-- The FAQ accordion handler (lines 43-50) under the claim's
assumption that question `i`'s `nextElementSibling` is answer block
`i`.  The state is the list of the answer blocks' inline
`style.display` strings.  A click on question `i` records whether
answer `i` currently shows `'block'`, sets every answer's display to
`'none'`, and then, if answer `i` exists, sets it to `'none'` if it
was open and `'block'` otherwise. -/
def faqClick (st : List String) (i : ℕ) : List String :=
  let isOpen := match st.get? i with
    | some d => d == "block"
    | none => false
  let hidden := st.map (fun _ => "none")
  match st.get? i with
  | some _ => hidden.set i (if isOpen then "none" else "block")
  | none => hidden

/-- How many answer blocks are visible (display exactly `'block'`). -/
def visibleCount (st : List String) : ℕ :=
  (st.filter (fun d => d = "block")).length

/-- A concrete trigger button with no `data-amount` attribute, used to
exercise the theorems on explicit inputs. -/
def sampleBtn : Button :=
  { dataAmount := none
    dataReceipt := some "booking_1"
    dataDescription := none
    dataName := none
    dataEmail := none
    dataContact := none
    disabled := false
    innerHTML := "Register" }

/-- A concrete matched element with no `data-amount` attribute, used to
exercise the theorems on explicit inputs. -/
def sampleElem : Elem :=
  { elemId := "x"
    classes := ["register-btn"]
    hasDataRegister := false
    dataAmount := none
    registerHandlerAttached := false
    clickHandlers := 0 }

/-- Validation of `mul100`: it agrees with multiplication by 100. -/
theorem mul100_eq (q : ℚ) : mul100 q = q * 100 := by
  rw [mul100, Rat.normalize_eq_mkRat, Rat.mkRat_eq_div]
  push_cast
  rw [mul_div_right_comm, Rat.num_div_den]

/-- Validation of `jsRound`: it is the floor of `q + 1/2`, the
standard description of `Math.round` on finite inputs. -/
theorem jsRound_eq_floor (q : ℚ) : jsRound q = ⌊q + 1/2⌋ := by
  have hden : ((q.den : ℚ)) ≠ 0 := by exact_mod_cast q.den_nz
  have hd : (0:ℤ) ≤ 2 * (q.den : ℤ) := by positivity
  have h2 : q + 1/2 = ((2 * q.num + (q.den:ℤ) : ℤ) : ℚ) / ((2 * q.den : ℕ) : ℚ) := by
    conv_lhs => rw [← Rat.num_div_den q]
    push_cast
    field_simp
    ring
  rw [jsRound, h2, Rat.floor_intCast_div_natCast, Int.fdiv_eq_ediv _ hd]
  push_cast
  rfl

/-- Claim C6: for every numeric or numeric-string input the minor-unit
conversion equals `round(Number(a||0) * 100)`, and for every
non-numeric input it returns `0`.  Both sides are total functions into
`ℤ`, so the result is always an integer and the conversion never
throws; negative inputs go through the same formula (no clamping). -/
theorem toPaise_matches_spec (v : JSVal) : toPaise v = toMinorUnitsSpec v := by
  cases v with
  | num q =>
      by_cases hq : q = 0 <;>
        simp [toPaise, toMinorUnitsSpec, jsNumber, jsOrZero, hq]
  | nan => decide
  | str s =>
      cases s with
      | empty => decide
      | numeric q =>
          by_cases hq : q = 0 <;>
            simp [toPaise, toMinorUnitsSpec, jsNumber, jsOrZero, hq]
      | nonNumeric => decide

/-- Claim C4: neither service-client wrapper ever raises to its
caller — both are total functions into `Option`, and each returns the
decoded object exactly on an `ok` (2xx) response with a decodable
body, and `null` (`none`) on a network failure, a non-success status,
or an undecodable body, as the spec's null-on-failure contract
states. -/
theorem serviceClient_null_on_failure (f : FetchResult Order)
    (g : FetchResult Verification) :
    createOrderOnServer f = clientContract f ∧
    verifyPaymentOnServer g = clientContract g := by
  constructor
  · cases f with
    | error e => rfl
    | ok resp =>
        cases resp with
        | mk ok body => cases ok <;> cases body <;> rfl
  · cases g with
    | error e => rfl
    | ok resp =>
        cases resp with
        | mk ok body => cases ok <;> cases body <;> rfl

/-- Claim C2: on every exit path of a click — widget success with any
verification outcome, dismissal, initialization failure or any other
error — the `finally` block re-enables the trigger and restores its
label to exactly the text captured before the loading indicator
replaced it, leaving every other attribute of the element unchanged. -/
theorem finalizer_restores_button (btn : Button) (now : ℕ)
    (createFetch : FetchResult Order) (widget : WidgetBehavior)
    (verifyFetch : FetchResult Verification) :
    (handleRegisterClick btn now createFetch widget verifyFetch).finalBtn =
      { btn with disabled := false } := by
  rfl

/-- Claim C1: whenever the widget invokes its success callback, the
orchestrator shows exactly one alert: the verified wording when the
verification result is `{verified: true}`, and otherwise — an
unverified result, an undecodable or non-success response, or an
unreachable endpoint (`verifyPayment` returning `null`) — the
provisional wording that notes verification is pending.  Both
wordings contain the payment identifier, witnessed by the explicit
prefix/suffix decompositions. -/
theorem success_message_shown (btn : Button) (now : ℕ)
    (createFetch : FetchResult Order) (verifyFetch : FetchResult Verification)
    (resp : PaymentResponse) :
    (handleRegisterClick btn now createFetch (.success resp) verifyFetch).alerts =
      [if verificationTruthy (verifyPaymentOnServer verifyFetch) then
          verifiedMsg resp.razorpay_payment_id
        else pendingMsg resp.razorpay_payment_id] ∧
    (handleRegisterClick btn now createFetch (.success resp) verifyFetch).alerts.length
      = 1 ∧
    verifiedMsg resp.razorpay_payment_id =
      "Payment successful and verified. Payment ID: " ++
        resp.razorpay_payment_id ++ "" ∧
    pendingMsg resp.razorpay_payment_id =
      "Payment successful. Payment ID: " ++ resp.razorpay_payment_id ++
        "\nPlease wait while we verify your payment." := by
  refine ⟨?_, ?_, by simp [verifiedMsg], rfl⟩ <;>
    by_cases h : verificationTruthy (verifyPaymentOnServer verifyFetch) <;>
      simp [handleRegisterClick, settle, openRazorpayCheckout, h]

/-- Claim C3: when `createOrder` comes back `null` (network failure,
non-success status or undecodable body), the widget is still opened,
and the configuration handed to it omits `order_id` while every other
field is populated as usual: the publishable key, the client-computed
minor-unit amount, the currency, display fields, prefill, notes and
theme. -/
theorem null_order_still_opens_widget (btn : Button) (now : ℕ)
    (createFetch : FetchResult Order) (widget : WidgetBehavior)
    (verifyFetch : FetchResult Verification)
    (h : createOrderOnServer createFetch = none) :
    (handleRegisterClick btn now createFetch widget verifyFetch).widgetOptions =
      { key := RAZORPAY_KEY_ID
        amount := effAmountPaise btn
        currency := "INR"
        name := "IELTS Powerhouse Workshop"
        description := attrOr btn.dataDescription "Workshop Booking"
        image := ""
        order_id := none
        prefill_name := attrOr btn.dataName ""
        prefill_email := attrOr btn.dataEmail ""
        prefill_contact := attrOr btn.dataContact ""
        notes_receipt := effReceipt btn now
        notes_source := "landing_page"
        theme_color := "#D4AF37" } := by
  simp [handleRegisterClick, buildOptions, h]

/-- Witness for C3 at a concrete input: the create-order `fetch`
rejects, yet the widget configuration is fully populated with
`order_id` omitted. -/
theorem null_order_still_opens_widget_witness :
    (handleRegisterClick sampleBtn 5 (.error { message := "net" })
        (.success ⟨"pay_1", "", ""⟩) (.error { message := "net" })).widgetOptions =
      { key := RAZORPAY_KEY_ID
        amount := effAmountPaise sampleBtn
        currency := "INR"
        name := "IELTS Powerhouse Workshop"
        description := attrOr sampleBtn.dataDescription "Workshop Booking"
        image := ""
        order_id := none
        prefill_name := attrOr sampleBtn.dataName ""
        prefill_email := attrOr sampleBtn.dataEmail ""
        prefill_contact := attrOr sampleBtn.dataContact ""
        notes_receipt := effReceipt sampleBtn 5
        notes_source := "landing_page"
        theme_color := "#D4AF37" } :=
  null_order_still_opens_widget sampleBtn 5 (.error { message := "net" })
    (.success ⟨"pay_1", "", ""⟩) (.error { message := "net" }) rfl

/-- Claim C5: a dismissal exits silently — no alert, an informational
console entry only — while a widget initialization failure (including
the `ReferenceError` thrown when the `Razorpay` constructor is
missing) or any other unexpected failure, i.e. any rejection other
than the dismissal sentinel, shows exactly the generic failure alert;
in both cases the handler returns to idle with the trigger re-enabled.
`handleRegisterClick` is a total function into `ClickResult`, so no
failure escapes the per-click handler in the model. -/
theorem dismiss_silent_failure_alerted (btn : Button) (now : ℕ)
    (createFetch : FetchResult Order) (verifyFetch : FetchResult Verification)
    (msg : String) (h : msg ≠ "checkout_dismissed") :
    ((handleRegisterClick btn now createFetch .dismiss verifyFetch).alerts = [] ∧
     (handleRegisterClick btn now createFetch .dismiss verifyFetch).infoLogs =
       ["Razorpay checkout dismissed by user."] ∧
     (handleRegisterClick btn now createFetch .dismiss verifyFetch).finalBtn.disabled
       = false) ∧
    ((handleRegisterClick btn now createFetch (.constructFail msg) verifyFetch).alerts
       = [failureMsg] ∧
     (handleRegisterClick btn now createFetch (.constructFail msg) verifyFetch).infoLogs
       = [] ∧
     (handleRegisterClick btn now createFetch (.constructFail msg)
         verifyFetch).finalBtn.disabled = false) := by
  simp [handleRegisterClick, settle, openRazorpayCheckout, h]

/-- Witness for C5 at a concrete input: dismissal is silent and a
constructor failure with message `"Razorpay is not defined"` alerts
the generic failure message. -/
theorem dismiss_silent_failure_alerted_witness :
    ((handleRegisterClick sampleBtn 5 (.error { message := "net" }) .dismiss
        (.error { message := "net" })).alerts = [] ∧
     (handleRegisterClick sampleBtn 5 (.error { message := "net" }) .dismiss
        (.error { message := "net" })).infoLogs =
       ["Razorpay checkout dismissed by user."] ∧
     (handleRegisterClick sampleBtn 5 (.error { message := "net" }) .dismiss
        (.error { message := "net" })).finalBtn.disabled = false) ∧
    ((handleRegisterClick sampleBtn 5 (.error { message := "net" })
        (.constructFail "Razorpay is not defined")
        (.error { message := "net" })).alerts = [failureMsg] ∧
     (handleRegisterClick sampleBtn 5 (.error { message := "net" })
        (.constructFail "Razorpay is not defined")
        (.error { message := "net" })).infoLogs = [] ∧
     (handleRegisterClick sampleBtn 5 (.error { message := "net" })
        (.constructFail "Razorpay is not defined")
        (.error { message := "net" })).finalBtn.disabled = false) :=
  dismiss_silent_failure_alerted sampleBtn 5 (.error { message := "net" })
    (.error { message := "net" }) "Razorpay is not defined" (by decide)

/-- Claim C10 (implicit behaviour): a non-null order descriptor whose
`amount` field is absent or zero is discarded wholesale — the widget
sees `order_id` omitted even when the descriptor carried one — and in
every environment the amount passed to the widget is the
client-computed minor-unit amount from the trigger, never the
server-returned amount. -/
theorem falsy_amount_discards_order (btn : Button) (now : ℕ)
    (createFetch : FetchResult Order) (widget : WidgetBehavior)
    (verifyFetch : FetchResult Verification)
    (o : Order) (ho : createOrderOnServer createFetch = some o)
    (hfalsy : orderAmountTruthy o = false) :
    (handleRegisterClick btn now createFetch widget verifyFetch).widgetOptions.order_id
      = none ∧
    ∀ (cf : FetchResult Order) (w : WidgetBehavior) (vf : FetchResult Verification),
      (handleRegisterClick btn now cf w vf).widgetOptions.amount =
        effAmountPaise btn := by
  constructor
  · simp [handleRegisterClick, buildOptions, ho, hfalsy]
  · intro cf w vf
    rfl

/-- Witness for C10 at a concrete input: the server returns
`{ order_id: "ord_1" }` with no amount field; the widget still gets no
`order_id`, and its amount is the client-side `9900`. -/
theorem falsy_amount_discards_order_witness :
    (handleRegisterClick sampleBtn 5
        (.ok { ok := true, body := .ok { order_id := some "ord_1", amount := none } })
        (.success ⟨"pay_1", "", ""⟩)
        (.error { message := "net" })).widgetOptions.order_id = none ∧
    (handleRegisterClick sampleBtn 5
        (.ok { ok := true, body := .ok { order_id := some "ord_1", amount := none } })
        (.success ⟨"pay_1", "", ""⟩)
        (.error { message := "net" })).widgetOptions.amount =
      effAmountPaise sampleBtn :=
  ⟨(falsy_amount_discards_order sampleBtn 5
      (.ok { ok := true, body := .ok { order_id := some "ord_1", amount := none } })
      (.success ⟨"pay_1", "", ""⟩) (.error { message := "net" })
      { order_id := some "ord_1", amount := none } rfl rfl).1,
   (falsy_amount_discards_order sampleBtn 5
      (.ok { ok := true, body := .ok { order_id := some "ord_1", amount := none } })
      (.success ⟨"pay_1", "", ""⟩) (.error { message := "net" })
      { order_id := some "ord_1", amount := none } rfl rfl).2
     (.ok { ok := true, body := .ok { order_id := some "ord_1", amount := none } })
     (.success ⟨"pay_1", "", ""⟩) (.error { message := "net" })⟩

/-- Binding never changes the selector-relevant features, so whether
an element is matched is stable under `bindElem`. -/
theorem bindElem_matched (el : Elem) :
    matchedBySelectors (bindElem el) = matchedBySelectors el := by
  rw [bindElem]
  split <;> rfl

/-- Binding is idempotent on a single element: the second pass sees
the attached marker and returns the element unchanged. -/
theorem bindElem_idem (el : Elem) : bindElem (bindElem el) = bindElem el := by
  by_cases ha : el.registerHandlerAttached <;> simp [bindElem, ha]

/-- The per-element initialization step is idempotent. -/
theorem initStep_idem (el : Elem) : initStep (initStep el) = initStep el := by
  by_cases hm : matchedBySelectors el
  · simp only [initStep, hm, if_true, bindElem_matched]
    exact bindElem_idem el
  · simp [initStep, hm]

/-- Running the registry twice is the same as running it once. -/
theorem initRegisterButtons_idem (dom : List Elem) :
    initRegisterButtons (initRegisterButtons dom) = initRegisterButtons dom := by
  rw [initRegisterButtons, initRegisterButtons, List.map_map]
  exact List.map_congr_left fun el _ => initStep_idem el

/-- Claim C7: initialization is idempotent — any number `n ≥ 1` of
runs over a DOM whose elements start unbound leaves exactly one click
handler on every element matched by the selector list (an element
matched by several selectors is processed once, since the `Set`
deduplicates) and none on unmatched elements; hence one activation of
a trigger invokes the bound handler, and so starts a checkout
sequence, exactly once. -/
theorem init_idempotent_single_bind (dom : List Elem) (n : ℕ) (hn : 1 ≤ n)
    (hfresh : ∀ el ∈ dom,
      el.registerHandlerAttached = false ∧ el.clickHandlers = 0) :
    initRegisterButtons (initRegisterButtons dom) = initRegisterButtons dom ∧
    ∀ el ∈ initRegisterButtons^[n] dom,
      el.clickHandlers = if matchedBySelectors el then 1 else 0 := by
  refine ⟨initRegisterButtons_idem dom, ?_⟩
  have hiter : initRegisterButtons^[n] dom = initRegisterButtons dom := by
    obtain ⟨m, rfl⟩ : ∃ m, n = m + 1 := ⟨n - 1, by omega⟩
    rw [Function.iterate_succ_apply]
    exact Function.iterate_fixed (initRegisterButtons_idem dom) m
  rw [hiter, initRegisterButtons]
  intro el hel
  obtain ⟨el0, hel0, rfl⟩ := List.mem_map.mp hel
  obtain ⟨ha, hc⟩ := hfresh el0 hel0
  by_cases hm : matchedBySelectors el0
  · have hmb : matchedBySelectors (bindElem el0) = true := by
      rw [bindElem_matched]
      exact hm
    simp only [initStep, hm, if_true, hmb]
    simp [bindElem, ha, hc]
  · simp [initStep, hm, hc]

/-- Witness for C7 at a concrete input: two runs over a fresh
one-element DOM leave the matched element with exactly one handler. -/
theorem init_idempotent_single_bind_witness :
    (initRegisterButtons (initRegisterButtons [sampleElem]) =
      initRegisterButtons [sampleElem]) ∧
    (bindElem sampleElem).clickHandlers =
      if matchedBySelectors (bindElem sampleElem) then 1 else 0 :=
  ⟨(init_idempotent_single_bind [sampleElem] 2 (by decide) (by decide)).1,
   (init_idempotent_single_bind [sampleElem] 2 (by decide) (by decide)).2
     (bindElem sampleElem) (by decide)⟩

/-- Evaluation of the default: the string `'99'` converts to 9900
minor units. -/
theorem toPaise_default : toPaise (.str (.numeric 99)) = 9900 := by decide

/-- Claim C9: a trigger with no amount attribute uses the documented
default of 99 units: the create-order request body and the widget
configuration both carry 9900 minor units; and initialization
backfills the default `data-amount` value `'99'` onto a matched,
not-yet-bound element missing the attribute. -/
theorem default_amount_used (btn : Button) (now : ℕ)
    (createFetch : FetchResult Order) (widget : WidgetBehavior)
    (verifyFetch : FetchResult Verification)
    (h : btn.dataAmount = none)
    (dom : List Elem) (i : ℕ) (el : Elem)
    (hel : dom.get? i = some el)
    (hm : matchedBySelectors el = true)
    (ha : el.registerHandlerAttached = false)
    (hda : el.dataAmount = none) :
    (handleRegisterClick btn now createFetch widget verifyFetch).createReq.amount
      = 9900 ∧
    (handleRegisterClick btn now createFetch widget verifyFetch).widgetOptions.amount
      = 9900 ∧
    (initRegisterButtons dom).get? i = some (bindElem el) ∧
    (bindElem el).dataAmount = some (.numeric 99) := by
  have hattr : effAmountAttr btn = .numeric 99 := by simp [effAmountAttr, h]
  have h99 : effAmountPaise btn = 9900 := by
    rw [effAmountPaise, hattr]
    exact toPaise_default
  refine ⟨h99, h99, ?_, ?_⟩
  · rw [initRegisterButtons, List.get?_map, hel]
    simp [initStep, hm]
  · simp [bindElem, ha, hda]

/-- Witness for C9 at a concrete input: `sampleBtn` and `sampleElem`
both lack the amount attribute; the request and configuration carry
9900 and the element is backfilled with `'99'`. -/
theorem default_amount_used_witness :
    (handleRegisterClick sampleBtn 5 (.error { message := "net" })
        (.success ⟨"pay_1", "", ""⟩) (.error { message := "net" })).createReq.amount
      = 9900 ∧
    (handleRegisterClick sampleBtn 5 (.error { message := "net" })
        (.success ⟨"pay_1", "", ""⟩)
        (.error { message := "net" })).widgetOptions.amount = 9900 ∧
    (initRegisterButtons [sampleElem]).get? 0 = some (bindElem sampleElem) ∧
    (bindElem sampleElem).dataAmount = some (.numeric 99) :=
  default_amount_used sampleBtn 5 (.error { message := "net" })
    (.success ⟨"pay_1", "", ""⟩) (.error { message := "net" }) rfl
    [sampleElem] 0 sampleElem rfl (by decide) rfl rfl

/-- A list of displays with no `'block'` entry has no visible answer. -/
theorem visibleCount_eq_zero (l : List String) (h : ∀ x ∈ l, x ≠ "block") :
    visibleCount l = 0 := by
  rw [visibleCount, List.length_eq_zero]
  exact List.filter_eq_nil_iff.mpr (by simpa using h)

/-- Every entry of the hidden-all intermediate state is `'none'`. -/
theorem hidden_all (st : List String) :
    ∀ x ∈ st.map (fun _ => "none"), x ≠ "block" := by
  intro x hx
  obtain ⟨a, _, rfl⟩ := List.mem_map.mp hx
  decide

/-- Unfolding of `visibleCount` on a cons cell. -/
theorem visibleCount_cons (a : String) (tl : List String) :
    visibleCount (a :: tl) = (if a = "block" then 1 else 0) + visibleCount tl := by
  by_cases h : a = "block" <;> simp [visibleCount, List.filter_cons, h] <;> omega

/-- Setting one entry of an all-hidden display list shows at most one
answer. -/
theorem visibleCount_set_le (l : List String) (i : ℕ) (v : String)
    (h : ∀ x ∈ l, x ≠ "block") : visibleCount (l.set i v) ≤ 1 := by
  induction l generalizing i with
  | nil => simp [visibleCount]
  | cons a tl ih =>
      cases i with
      | zero =>
          rw [List.set_cons_zero, visibleCount_cons]
          rw [visibleCount_eq_zero tl (fun x hx => h x (List.mem_cons_of_mem a hx))]
          split <;> omega
      | succ i =>
          rw [List.set_cons_succ, visibleCount_cons]
          have ha : a ≠ "block" := h a (List.mem_cons_self a tl)
          rw [if_neg ha]
          have := ih i (fun x hx => h x (List.mem_cons_of_mem a hx))
          omega

/-- A single accordion click leaves at most one answer visible,
whatever the starting displays were. -/
theorem faqClick_visible_le (st : List String) (i : ℕ) :
    visibleCount (faqClick st i) ≤ 1 := by
  rw [faqClick]
  cases h : st.get? i with
  | none =>
      simp only [h]
      rw [visibleCount_eq_zero _ (hidden_all st)]
      omega
  | some d =>
      simp only [h]
      exact visibleCount_set_le _ _ _ (hidden_all st)

/-- After any nonempty click sequence at most one answer is visible. -/
theorem foldl_faqClick_le (clicks : List ℕ) :
    ∀ st : List String, clicks ≠ [] →
      visibleCount (List.foldl faqClick st clicks) ≤ 1 := by
  induction clicks with
  | nil => intro st h; exact absurd rfl h
  | cons c cs ih =>
      intro st _
      cases cs with
      | nil => simpa using faqClick_visible_le st c
      | cons d ds => simpa using ih (faqClick st c) (by simp)

/-- What each display reads after a click on question `i` whose answer
block exists: position `i` toggles relative to its old display, every
other existing position reads `'none'`. -/
theorem faqClick_get (st : List String) (i j : ℕ) (d : String)
    (h : st.get? i = some d) :
    (faqClick st i).get? j =
      if j = i then some (if d = "block" then "none" else "block")
      else (st.get? j).map (fun _ => "none") := by
  rw [faqClick]
  simp only [h]
  by_cases hji : j = i
  · subst hji
    rw [List.get?_set_eq, List.get?_map, h]
    by_cases hd : d = "block" <;> simp [hd]
  · rw [List.get?_set_ne _ _ (fun e => hji e.symm), List.get?_map]
    simp [hji]

/-- Claim C8: under the assumption that each question's immediately
following sibling is its answer block, any nonempty click sequence
leaves at most one answer visible; clicking question `i` whose answer
is hidden reveals exactly answer `i` (everything else reads `'none'`),
and clicking a question whose answer shows `'block'` hides it, leaving
no answer visible. -/
theorem faq_accordion_behaviour (st : List String) (i : ℕ) (clicks : List ℕ) :
    (clicks ≠ [] → visibleCount (List.foldl faqClick st clicks) ≤ 1) ∧
    (i < st.length →
      (st.get? i ≠ some "block" →
        ∀ j, ((faqClick st i).get? j = some "block" ↔ j = i)) ∧
      (st.get? i = some "block" →
        ∀ j, (faqClick st i).get? j ≠ some "block")) := by
  refine ⟨fun hne => foldl_faqClick_le clicks st hne, fun hi => ⟨?_, ?_⟩⟩
  · intro hnb j
    cases h : st.get? i with
    | none =>
        rw [List.get?_eq_none] at h
        omega
    | some d =>
        have hdne : d ≠ "block" := by
          intro e
          subst e
          exact hnb h
        rw [faqClick_get st i j d h]
        by_cases hji : j = i
        · simp [hji, hdne]
        · rw [if_neg hji]
          cases st.get? j <;> simp [hji]
  · intro hb j
    rw [faqClick_get st i j "block" hb]
    by_cases hji : j = i
    · simp [hji]
    · rw [if_neg hji]
      cases st.get? j <;> simp

/-- Witness for C8 at concrete inputs: clicking question 1 of a page
whose answer 0 is open reveals exactly answer 1; clicking question 0
while its answer is open hides it; and a nonempty click sequence on a
three-question page leaves at most one answer visible. -/
theorem faq_accordion_behaviour_witness :
    (visibleCount (List.foldl faqClick ["block", "", "block"] [0, 2, 1]) ≤ 1) ∧
    ((faqClick ["block", "none"] 1).get? 1 = some "block" ↔ 1 = 1) ∧
    (faqClick ["block", "none"] 0).get? 0 ≠ some "block" :=
  ⟨(faq_accordion_behaviour ["block", "", "block"] 0 [0, 2, 1]).1 (by decide),
   ((faq_accordion_behaviour ["block", "none"] 1 [0, 2, 1]).2 (by decide)).1
     (by decide) 1,
   ((faq_accordion_behaviour ["block", "none"] 0 [0, 2, 1]).2 (by decide)).2
     (by decide) 0⟩
